import Mathlib

/-!
Verification development for `prompt_generator_app.py`.

The file gives a shallow embedding of the core, non-UI parts of the
application: the credential resolver `get_secret`, the
`PromptGenerator` constructor and its `generate_system_prompt`
operation (the large-language-model completion call is abstracted as an
oracle from the built request text to a parsed-or-failed result), the
`PromptWithExamples` response schema, and the `ChatbotTester.send_message`
operation (the HTTP transport is abstracted as a `TransportResult`
oracle, and the two `generate_uuid` calls as a supply `uuids : Nat → String`
whose first two outputs are consumed).  Python dictionaries of optional
strings are embedded as functions `String → Option String`; Python
truthiness of such values is `truthyStr`; exceptions are `Except String`.
-/

namespace PromptApp

/-- Python truthiness of an optional string value: `None` and the empty
string are falsy, every other string is truthy. -/
def truthyStr : Option String → Bool
  | none => false
  | some s => !(s == "")

/-- Embedding of `get_secret`: consult the Streamlit secret store first
(exact key match), then the process environment.  Both sources are
embedded as partial maps `String → Option String`. -/
def get_secret (secrets env : String → Option String) (key : String) : Option String :=
  match secrets key with
  | some v => some v
  | none => env key

/-- Embedding of the pydantic model `PromptWithExamples`:
`system_prompt : str`, `example_questions : List[str]`. -/
structure PromptWithExamples where
  system_prompt : String
  example_questions : List String
deriving DecidableEq, Repr

/-- Shape of one JSON field as seen by pydantic validation: missing,
a string, a list of strings, or some other JSON value. -/
inductive JsonField where
  | missing : JsonField
  | ofString : String → JsonField
  | ofStringList : List String → JsonField
  | other : JsonField
deriving DecidableEq, Repr

/-- Pydantic validation of a candidate response object against the
`PromptWithExamples` model: it checks that `system_prompt` is a string
and `example_questions` is a list of strings, and nothing else — the
model declares no length bound on `example_questions`. -/
def parsePromptWithExamples (system_prompt example_questions : JsonField) :
    Except String PromptWithExamples :=
  match system_prompt, example_questions with
  | JsonField.ofString sp, JsonField.ofStringList qs =>
      Except.ok { system_prompt := sp, example_questions := qs }
  | _, _ => Except.error "validation error for PromptWithExamples"

/-- Embedding of Python `', '.join(missing)`. -/
def joinComma : List String → String
  | [] => ""
  | [s] => s
  | s :: t :: rest => s ++ ", " ++ joinComma (t :: rest)

/-- State of a constructed `PromptGenerator`: the stored model name and
deployment, and the fields passed to the `AzureOpenAI` client. -/
structure PromptGenerator where
  model_name : String
  deployment : String
  client_api_key : String
  client_endpoint : String
  client_api_version : String
deriving DecidableEq, Repr

/-- The api-key credential resolved by `PromptGenerator.__init__`:
the `GPT4_MINI` key for model `gpt-4o-mini`, the `GPT3_MINI` key for
every other model name (the `else` branch of the source). -/
def resolved_api_key (secrets env : String → Option String) (model_name : String) :
    Option String :=
  if model_name = "gpt-4o-mini" then get_secret secrets env "GPT4_MINI_API_KEY"
  else get_secret secrets env "GPT3_MINI_API_KEY"

/-- The endpoint credential resolved by `PromptGenerator.__init__`. -/
def resolved_endpoint (secrets env : String → Option String) (model_name : String) :
    Option String :=
  if model_name = "gpt-4o-mini" then get_secret secrets env "GPT4_MINI_ENDPOINT"
  else get_secret secrets env "GPT3_MINI_ENDPOINT"

/-- The deployment credential resolved by `PromptGenerator.__init__`. -/
def resolved_deployment (secrets env : String → Option String) (model_name : String) :
    Option String :=
  if model_name = "gpt-4o-mini" then get_secret secrets env "GPT4_MINI_DEPLOYMENT"
  else get_secret secrets env "GPT3_MINI_DEPLOYMENT"

/-- The `missing` list built by `PromptGenerator.__init__` before raising:
one human-readable name per falsy credential, in source order. -/
def missingNames (secrets env : String → Option String) (model_name : String) :
    List String :=
  (if truthyStr (resolved_api_key secrets env model_name) then [] else ["API Key"]) ++
  (if truthyStr (resolved_endpoint secrets env model_name) then [] else ["Endpoint"]) ++
  (if truthyStr (resolved_deployment secrets env model_name) then [] else ["Deployment"])

/-- Embedding of `PromptGenerator.__init__`: resolve the three
credentials for the selected profile, raise `ValueError` (here
`Except.error`) listing every falsy credential when `not all([...])`,
otherwise store the deployment and build the client. -/
def promptGeneratorInit (secrets env : String → Option String) (model_name : String) :
    Except String PromptGenerator :=
  let api_key := resolved_api_key secrets env model_name
  let endpoint := resolved_endpoint secrets env model_name
  let deployment := resolved_deployment secrets env model_name
  if truthyStr api_key && truthyStr endpoint && truthyStr deployment then
    Except.ok { model_name := model_name, deployment := deployment.getD "",
                client_api_key := api_key.getD "", client_endpoint := endpoint.getD "",
                client_api_version := "2024-12-01-preview" }
  else
    Except.error ("Missing " ++ model_name ++ " credentials: " ++
      joinComma (missingNames secrets env model_name))

/-- Substring relation on strings, via the infix relation on the
underlying character lists. -/
def containsSub (s pat : String) : Prop := pat.data <:+: s.data

instance (s pat : String) : Decidable (containsSub s pat) :=
  inferInstanceAs (Decidable (pat.data <:+: s.data))

/-- The dictionary returned by `send_message`: a `status` tag
(`"success"` or `"error"`) and a `text`. -/
structure ChatResult where
  status : String
  text : String
deriving DecidableEq, Repr

/-- Shape of the `content` field of a chatbot API response: a JSON
string, a JSON array of objects (each embedded by its optional `text`
field), or any other JSON value, embedded by its truthiness. -/
inductive ContentValue where
  | jstr : String → ContentValue
  | jlist : List (Option String) → ContentValue
  | jother : Bool → ContentValue
deriving DecidableEq, Repr

/-- Python truthiness of a `content` value: the empty string and the
empty list are falsy. -/
def contentTruthy : ContentValue → Bool
  | ContentValue.jstr s => !(s == "")
  | ContentValue.jlist items => !items.isEmpty
  | ContentValue.jother b => b

/-- A decoded chatbot API response body: `answer_text` embeds
`data.get('answer', {}).get('text')` (`none` when the `answer` object
or its `text` field is missing), `content` embeds `data.get('content')`. -/
structure ApiResponseData where
  answer_text : Option String
  content : Option ContentValue
deriving DecidableEq, Repr

/-- Embedding of
`next((item.get('text') for item in content if item.get('text')), None)`:
the first item whose `text` field is truthy. -/
def firstTextItem : List (Option String) → Option String
  | [] => none
  | none :: rest => firstTextItem rest
  | some t :: rest => if t == "" then firstTextItem rest else some t

/-- The error result returned when no extraction rule applies. -/
def extractionFailure : ChatResult :=
  { status := "error", text := "Unable to extract text from API response" }

/-- The `elif data.get('content')` branch of `send_message` together
with the final fall-through `return`. -/
def extractContent : Option ContentValue → ChatResult
  | none => extractionFailure
  | some c =>
    if contentTruthy c then
      match c with
      | ContentValue.jstr s => { status := "success", text := s }
      | ContentValue.jlist items =>
        match firstTextItem items with
        | some t => { status := "success", text := t }
        | none => extractionFailure
      | ContentValue.jother _ => extractionFailure
    else extractionFailure

/-- The reply-extraction block of `send_message` (the code after
`data = response.json()`): `answer.text` first when truthy, then the
`content` branches, then the extraction-failure error. -/
def extractText (data : ApiResponseData) : ChatResult :=
  match data.answer_text with
  | some t => if t == "" then extractContent data.content else { status := "success", text := t }
  | none => extractContent data.content

/-- Modelled from the spec: extraction rule (a), the `answer.text`
field, yielding only a non-empty value. -/
def specRuleA (d : ApiResponseData) : Option String :=
  match d.answer_text with
  | some t => if t == "" then none else some t
  | none => none

/-- Modelled from the spec: extraction rule (b), a `content` field that
is a sequence, taking the first element exposing a non-empty `text`. -/
def specRuleB (d : ApiResponseData) : Option String :=
  match d.content with
  | some (ContentValue.jlist items) => (items.find? (fun it => it.getD "" != "")).join
  | _ => none

/-- Modelled from the spec: extraction rule (c), a `content` field that
is itself plain text, yielding only a non-empty value. -/
def specRuleC (d : ApiResponseData) : Option String :=
  match d.content with
  | some (ContentValue.jstr s) => if s == "" then none else some s
  | _ => none

/-- Modelled from the spec: try the three extraction rules strictly in
order, return success with the first value found, otherwise the
extraction-failure error. -/
def specOrderedExtract (d : ApiResponseData) : ChatResult :=
  match specRuleA d <|> specRuleB d <|> specRuleC d with
  | some t => { status := "success", text := t }
  | none => extractionFailure

/-- State of a `ChatbotTester`: project id, system prompt, and the API
url computed in `__init__`. -/
structure ChatbotTester where
  project_id : String
  system_prompt : String
  api_url : String
deriving DecidableEq, Repr

/-- Embedding of `ChatbotTester.__init__`. -/
def mkChatbotTester (project_id system_prompt : String) : ChatbotTester :=
  { project_id := project_id, system_prompt := system_prompt,
    api_url := "https://genii-messages-01.tolk.ai/v1/projects/" ++ project_id ++ "/answer" }

/-- The JSON request body built by `send_message`, field by field
(`history` is the empty prior-history list; `trigger_resource` embeds
JSON `null` as `none`). -/
structure RequestBody where
  conversation_id : String
  message_text : String
  trigger_type : String
  trigger_resource : Option String
  user_id : String
  user_language : String
  history : List String
  promptConfig_value : String
  promptConfig_temperature : Nat
  promptConfig_model : String
deriving DecidableEq, Repr

/-- The single outbound HTTP call issued by `send_message`. -/
structure HttpPostCall where
  method : String
  url : String
  body : RequestBody
  content_type : String
  timeout_seconds : Nat
deriving DecidableEq, Repr

/-- Outcome of the `requests.post` call and the subsequent
`response.json()`: an HTTP response with status code, raw text body and
parsed JSON (`Except.error` when `json()` raises), a `requests.Timeout`,
or any other exception with its description. -/
inductive TransportResult where
  | httpResponse : Nat → String → Except String ApiResponseData → TransportResult
  | timeout : TransportResult
  | exn : String → TransportResult
deriving Repr

/-- Embedding of `requests.Response.ok`: true unless the status code is
a 4xx or 5xx. -/
def responseOk (status_code : Nat) : Bool :=
  if 400 ≤ status_code ∧ status_code < 600 then false else true

/-- The request body built by `send_message`: the two `generate_uuid()`
calls are the first two outputs of the supply `uuids`, the message is
trimmed, the history is empty, and the prompt configuration carries the
stored system prompt, temperature 0 and the chosen model. -/
def send_message_request (t : ChatbotTester) (uuids : Nat → String)
    (message language model : String) : RequestBody :=
  { conversation_id := uuids 0, message_text := message.trim,
    trigger_type := "input", trigger_resource := none,
    user_id := uuids 1, user_language := language, history := [],
    promptConfig_value := t.system_prompt, promptConfig_temperature := 0,
    promptConfig_model := model }

/-- The result-processing part of `send_message`: the `try`/`except`
block around the HTTP call, the `response.ok` check, and the
reply-extraction block. -/
def send_message_result (transport : TransportResult) : ChatResult :=
  match transport with
  | TransportResult.httpResponse status_code body parsed =>
    if responseOk status_code then
      match parsed with
      | Except.ok data => extractText data
      | Except.error e => { status := "error", text := "Error: " ++ e }
    else
      { status := "error",
        text := "HTTP error! status: " ++ toString status_code ++ ", body: " ++ body }
  | TransportResult.timeout =>
      { status := "error", text := "Request timed out. Please try again." }
  | TransportResult.exn e => { status := "error", text := "Error: " ++ e }

/-- Embedding of `ChatbotTester.send_message`: builds the request body,
issues exactly one HTTP POST described by the returned `HttpPostCall`,
and produces the `ChatResult` for the given transport outcome. -/
def send_message (t : ChatbotTester) (uuids : Nat → String)
    (message language model : String) (transport : TransportResult) :
    HttpPostCall × ChatResult :=
  ({ method := "POST", url := t.api_url,
     body := send_message_request t uuids message language model,
     content_type := "application/json", timeout_seconds := 30 },
   send_message_result transport)

/-- Text of the generation prompt before the `activite` answer. -/
def genPromptPart0 : String :=
  "You are an expert in creating high-quality system prompts for AI assistants.\n" ++
  "Based on the following information provided by the user, create a comprehensive, well-structured system prompt that will guide an AI assistant\x27s behavior.\n" ++
  "\n" ++
  "You also need to generate 4-5 realistic example questions that users might ask this AI assistant based on its role and domain.\n" ++
  "\n" ++
  "**User\x27s Answers:**\n" ++
  "\n" ++
  "1. **Activité et rôle de l\x27assistant IA:**\n" ++
  ""

/-- Text of the generation prompt between the `activite` and `regles` answers. -/
def genPromptPart1 : String :=
  "\n" ++
  "\n" ++
  "2. **Règles absolues à respecter:**\n" ++
  ""

/-- Text of the generation prompt between the `regles` and `personnalite` answers. -/
def genPromptPart2 : String :=
  "\n" ++
  "\n" ++
  "3. **Personnalité de l\x27assistant:**\n" ++
  ""

/-- Text of the generation prompt between the `personnalite` and `scenarios` answers. -/
def genPromptPart3 : String :=
  "\n" ++
  "\n" ++
  "4. **Scénarios spécifiques:**\n" ++
  ""

/-- Text of the generation prompt after the `scenarios` answer. -/
def genPromptPart4 : String :=
  "\n" ++
  "\n" ++
  "**Best Practices for System Prompts:**\n" ++
  "- Start with a clear role definition\n" ++
  "- Specify the assistant\x27s expertise and knowledge domain\n" ++
  "- Define behavioral guidelines and constraints\n" ++
  "- Include tone and communication style instructions\n" ++
  "- Address edge cases and special scenarios\n" ++
  "- Be specific and actionable\n" ++
  "- Use clear, structured language\n" ++
  "- Include examples when relevant\n" ++
  "\n" ++
  "**Examples of Well-Structured System Prompts for Inspiration:**\n" ++
  "\n" ++
  "Example 1 - E-commerce Assistant (Glisshop):\n" ++
  "```\n" ++
  "You are an advanced AI sales assistant representing Glisshop, an e-commerce store specialized in winter sports and outdoor gear. Your mission is to guide customers throughout their shopping journey: recommending products, answering pre-sales questions, and providing relevant post-sales support.\n" ++
  "\n" ++
  "You must ONLY use information and URLs that are EXPLICITLY provided in the search results given to you. NEVER use or reference any URLs, products, or information that does not appear in these search results. If certain information is not available in the results, politely inform the customer that you don\x27t have that specific information.\n" ++
  "\n" ++
  "Your objectives are to:\n" ++
  "- Enhance the customer experience\n" ++
  "- Increase conversion and average order value\n" ++
  "- Ensure accurate, fast, and friendly assistance\n" ++
  "\n" ++
  "Guidelines for Response:\n" ++
  "- If the user sends a message with only one or two words (e.g., \"Retour\", \"Randonnée bivouac\"), you HAVE TO ask them to provide more details or clarify their question before you continue.\n" ++
  "- Only rely on the information provided in the search results. Never guess, invent, or modify product information or URL links.\n" ++
  "- Share links ONLY if they appear in the search results provided to you. Never create, modify, or assume URLs exist.\n" ++
  "- Before recommending any product, YOU MUST ALWAYS ask at least two clarifying questions to better understand the customer\x27s needs (e.g., use, budget, size).\n" ++
  "- Only suggest complementary products (e.g., helmet with skis) if they actually appear in the provided search results.\n" ++
  "- Include product links with descriptive anchor text (NEVER naked or invented URLs).\n" ++
  "- If the search results don\x27t contain certain requested information, clearly state that you don\x27t have this information and suggest contacting customer service or offer to talk to a human.\n" ++
  "- Adopt a friendly tone but not too excited, and always use the \"vous\" form.\n" ++
  "- When providing recommendations, limit the examples to 3.\n" ++
  "\n" ++
  "Conditional Instructions:\n" ++
  "- If a question concerns ski boots AND the link https://www.glisshop.com/conseils/taille-chaussure-ski.html appears in your search results, then include this link in your answer.\n" ++
  "- When suggesting a product, only give the specific product link if it appears in the search results. Never construct or guess product URLs.\n" ++
  "- Only mention products that are in stock (not marked as \"épuisé\") IF this information is available in the search results.\n" ++
  "\n" ++
  "Protocol for Answering:\n" ++
  "- For product search: Recommend products that are present in the results.\n" ++
  "- For product inquiry: Provide information using only verified data from the results.\n" ++
  "- For pre/post-sales questions: Answer using only information from the results.\n" ++
  "- If you don\x27t have the answer just say \"Je ne sais pas répondre à cette question, pouvez-vous reformuler ? A moins que vous ne vouliez parler à un humain ?\"\n" ++
  "\n" ++
  "Fallback Response:\n" ++
  "If none of the search results contain relevant information for the query, respond with: \"Je n\x27ai pas trouvé d\x27informations spécifiques sur ce sujet dans ma base de connaissances actuelle. Pour obtenir des informations précises, je vous invite à contacter notre service client.\"\n" ++
  "\n" ++
  "You always HAVE TO end every conversation with: \"Votre avis nous est précieux ! N\x27hésitez pas à noter la conversation.\" (translate if conversation is not in French)\n" ++
  "\n" ++
  "Add subtle emojis: for example green ✅ for strengths, red ❌ for weaknesses, keeping it professional.\n" ++
  "```\n" ++
  "\n" ++
  "Example 2 - Technical Support Assistant:\n" ++
  "```\n" ++
  "You are a technical support specialist for a SaaS company providing project management software. Your role is to help users troubleshoot issues, understand features, and optimize their use of the platform.\n" ++
  "\n" ++
  "Core Responsibilities:\n" ++
  "- Diagnose and resolve technical issues\n" ++
  "- Provide clear step-by-step instructions\n" ++
  "- Escalate complex problems when necessary\n" ++
  "- Document common issues and solutions\n" ++
  "\n" ++
  "Communication Guidelines:\n" ++
  "- Be patient and empathetic, especially with frustrated users\n" ++
  "- Use simple language, avoiding unnecessary jargon\n" ++
  "- Break down complex solutions into manageable steps\n" ++
  "- Always confirm understanding before closing the conversation\n" ++
  "- Respond within 2-3 minutes maximum\n" ++
  "\n" ++
  "Constraints:\n" ++
  "- Never ask for passwords or sensitive credentials\n" ++
  "- Do not make promises about feature releases or timelines\n" ++
  "- Always verify user identity before accessing account details\n" ++
  "- Escalate to senior support for billing or account termination requests\n" ++
  "\n" ++
  "When uncertain:\n" ++
  "If you don\x27t have enough information to provide a solution, ask clarifying questions about:\n" ++
  "- The exact steps that led to the issue\n" ++
  "- Any error messages received\n" ++
  "- The user\x27s browser/device/OS version\n" ++
  "- Whether the issue is reproducible\n" ++
  "```\n" ++
  "\n" ++
  "Example 3 - Customer Service Assistant (Banking):\n" ++
  "```\n" ++
  "You are a customer service representative for a digital bank. Your mission is to assist customers with account inquiries, transaction questions, and general banking support while maintaining the highest standards of security and professionalism.\n" ++
  "\n" ++
  "Key Principles:\n" ++
  "- Security first: Never request or share sensitive information (passwords, PINs, full card numbers)\n" ++
  "- Accuracy: Only provide information you are certain about\n" ++
  "- Compliance: Adhere to banking regulations and privacy laws at all times\n" ++
  "\n" ++
  "Your Tone Should Be:\n" ++
  "- Professional yet warm\n" ++
  "- Reassuring, especially regarding security concerns\n" ++
  "- Clear and concise, avoiding banking jargon\n" ++
  "- Patient with less tech-savvy customers\n" ++
  "\n" ++
  "What You Can Help With:\n" ++
  "- Account balance and transaction history inquiries\n" ++
  "- Explanation of fees and charges\n" ++
  "- Card activation and replacement\n" ++
  "- General product information\n" ++
  "- Directing customers to appropriate resources\n" ++
  "\n" ++
  "What Requires Escalation:\n" ++
  "- Fraud reports or suspicious activity\n" ++
  "- Loan applications or modifications\n" ++
  "- Account closures\n" ++
  "- Disputes exceeding $500\n" ++
  "- Legal or regulatory inquiries\n" ++
  "\n" ++
  "Standard Responses:\n" ++
  "- For security verification: \"For your security, I\x27ll need to verify your identity. Can you please provide [specific non-sensitive information]?\"\n" ++
  "- For out-of-scope requests: \"I understand this is important. For [specific issue], I\x27ll need to connect you with our specialized team who can assist you better.\"\n" ++
  "- For unclear requests: \"To help you more effectively, could you provide more details about [specific aspect]?\"\n" ++
  "```\n" ++
  "\n" ++
  "Now, based on the user\x27s answers and inspired by the structure and clarity of these examples, you need to generate TWO things:\n" ++
  "\n" ++
  "1. **system_prompt**: A professional, comprehensive system prompt that incorporates all the information provided above. \n" ++
  "   The prompt should be:\n" ++
  "   - Ready to use directly as a system message\n" ++
  "   - Well-structured with clear sections\n" ++
  "   - Specific and actionable\n" ++
  "   - Professional yet natural\n" ++
  "\n" ++
  "2. **example_questions**: A list of 4-5 realistic questions that users might ask this AI assistant, based on:\n" ++
  "   - The assistant\x27s domain and role\n" ++
  "   - Common scenarios in this context\n" ++
  "   - Different types of inquiries (simple, complex, edge cases)\n" ++
  "   - Varied question formats (short/long, general/specific)\n" ++
  "\n" ++
  "Examples of good example_questions for different domains:\n" ++
  "- E-commerce: \"Quelles chaussures de running recommandez-vous pour un débutant ?\", \"Comment retourner un article ?\", \"Avez-vous des promotions en cours ?\", \"Quelle est la durée de livraison ?\"\n" ++
  "- Tech Support: \"Mon application ne se lance pas, que faire ?\", \"Comment réinitialiser mon mot de passe ?\", \"L\x27export Excel ne fonctionne plus\"\n" ++
  "- Banking: \"Quel est mon solde actuel ?\", \"Comment activer ma carte bancaire ?\", \"Puis-je augmenter mon plafond de paiement ?\"\n" ++
  "\n" ++
  "Return your response in the following JSON structure."

/-- Rendering of one answer field into the generation prompt:
embedding of `answers.get(key, 'Non spécifié')` — the placeholder is the
dictionary default, substituted only when the key is missing. -/
def renderAnswer (answers : String → Option String) (key : String) : String :=
  (answers key).getD "Non spécifié"

/-- The full generation request text built by `generate_system_prompt`
(the f-string `prompt`): the fixed template with the four rendered
answers interpolated. -/
def generation_request (answers : String → Option String) : String :=
  genPromptPart0 ++ renderAnswer answers "activite" ++
  genPromptPart1 ++ renderAnswer answers "regles" ++
  genPromptPart2 ++ renderAnswer answers "personnalite" ++
  genPromptPart3 ++ renderAnswer answers "scenarios" ++
  genPromptPart4

/-- Embedding of `PromptGenerator.generate_system_prompt`: build the
generation request, submit it to the completion endpoint (abstracted as
`oracle`, whose `Except.error` case carries the description of any
provider or schema-validation exception), and either return the parsed
pair or re-raise with the French prefix. -/
def generate_system_prompt (oracle : String → Except String PromptWithExamples)
    (answers : String → Option String) : Except String (String × List String) :=
  match oracle (generation_request answers) with
  | Except.ok result => Except.ok (result.system_prompt, result.example_questions)
  | Except.error e => Except.error ("Erreur lors de la génération du prompt: " ++ e)

/-- Success test on an `Except` value. -/
def exceptIsOk {ε α : Type} : Except ε α → Bool
  | Except.ok _ => true
  | Except.error _ => false

/-- Helper: a substring of `b` is a substring of `a ++ b`. -/
theorem containsSub_append_left (a : String) {b pat : String}
    (h : containsSub b pat) : containsSub (a ++ b) pat := by
  obtain ⟨s, t, hst⟩ := h
  exact ⟨a.data ++ s, t, by rw [String.data_append, ← hst]; simp [List.append_assoc]⟩

/-- Helper: every member of a list is a substring of its comma join. -/
theorem joinComma_containsSub_of_mem :
    ∀ (l : List String) (x : String), x ∈ l → containsSub (joinComma l) x
  | [], x, h => absurd h (List.not_mem_nil x)
  | [a], x, h => by
      rw [List.mem_singleton.1 h]
      exact ⟨[], [], by simp [joinComma]⟩
  | a :: b :: r, x, h => by
      rcases List.mem_cons.1 h with rfl | h2
      · exact ⟨[], (", " ++ joinComma (b :: r)).data, by
          simp [joinComma, String.data_append, List.append_assoc]⟩
      · exact containsSub_append_left (a ++ ", ")
          (joinComma_containsSub_of_mem (b :: r) x h2)

/-- Claim C9: the credential resolver consults the secret store first and
the environment second, returns the first present value, and returns
absent when neither source has the key; it is a pure function. -/
theorem get_secret_resolution_order :
    ∀ (secrets env : String → Option String) (key : String),
      (∀ v, secrets key = some v → get_secret secrets env key = some v) ∧
      (secrets key = none → get_secret secrets env key = env key) ∧
      (secrets key = none → env key = none → get_secret secrets env key = none) := by
  intro secrets env key
  refine ⟨?_, ?_, ?_⟩
  · intro v hv; simp [get_secret, hv]
  · intro h; simp [get_secret, h]
  · intro h h2; simp [get_secret, h, h2]

/-- Store holding only a value for `"K"`. -/
def storePair : String → Option String :=
  fun key => if key = "K" then some "store-value" else none

/-- Environment holding values for `"K"` and `"L"`. -/
def envPair : String → Option String :=
  fun key => if key = "K" then some "env-value" else
    if key = "L" then some "env-only" else none

/-- Witness for claim C9 at concrete stores: the store wins for `"K"`,
the environment answers for `"L"`, and `"M"` resolves to absent. -/
theorem get_secret_resolution_order_witness :
    get_secret storePair envPair "K" = some "store-value" ∧
    get_secret storePair envPair "L" = envPair "L" ∧
    get_secret storePair envPair "M" = none :=
  ⟨(get_secret_resolution_order storePair envPair "K").1 "store-value" (by decide),
   (get_secret_resolution_order storePair envPair "L").2.1 (by decide),
   (get_secret_resolution_order storePair envPair "M").2.2 (by decide) (by decide)⟩

/-- Claim C3: whenever at least one of the three credentials resolves to
absent, construction fails, and the error message names every absent
credential by its human-readable name. -/
theorem promptGeneratorInit_names_all_missing :
    ∀ (secrets env : String → Option String) (model_name : String),
      (resolved_api_key secrets env model_name = none ∨
       resolved_endpoint secrets env model_name = none ∨
       resolved_deployment secrets env model_name = none) →
      ∃ msg, promptGeneratorInit secrets env model_name = Except.error msg ∧
        (resolved_api_key secrets env model_name = none → containsSub msg "API Key") ∧
        (resolved_endpoint secrets env model_name = none → containsSub msg "Endpoint") ∧
        (resolved_deployment secrets env model_name = none → containsSub msg "Deployment") := by
  intro secrets env mn h
  have hcond : (truthyStr (resolved_api_key secrets env mn) &&
      truthyStr (resolved_endpoint secrets env mn) &&
      truthyStr (resolved_deployment secrets env mn)) = false := by
    rcases h with h | h | h <;> rw [h] <;> simp [truthyStr]
  refine ⟨"Missing " ++ mn ++ " credentials: " ++ joinComma (missingNames secrets env mn),
    ?_, ?_, ?_, ?_⟩
  · simp [promptGeneratorInit, hcond]
  · intro hx
    exact containsSub_append_left _
      (joinComma_containsSub_of_mem _ _ (by simp [missingNames, hx, truthyStr]))
  · intro hx
    exact containsSub_append_left _
      (joinComma_containsSub_of_mem _ _ (by simp [missingNames, hx, truthyStr]))
  · intro hx
    exact containsSub_append_left _
      (joinComma_containsSub_of_mem _ _ (by simp [missingNames, hx, truthyStr]))

/-- Store holding only the `GPT4_MINI` api key. -/
def storeOnlyApiKey : String → Option String :=
  fun key => if key = "GPT4_MINI_API_KEY" then some "sk-test" else none

/-- Empty environment. -/
def envNone : String → Option String := fun _ => none

/-- Witness for claim C3: with only the api key present, construction
fails and the error names both `Endpoint` and `Deployment`; the computed
message is also evaluated exactly. -/
theorem promptGeneratorInit_names_all_missing_witness :
    (∃ msg, promptGeneratorInit storeOnlyApiKey envNone "gpt-4o-mini" = Except.error msg ∧
      (resolved_api_key storeOnlyApiKey envNone "gpt-4o-mini" = none → containsSub msg "API Key") ∧
      (resolved_endpoint storeOnlyApiKey envNone "gpt-4o-mini" = none → containsSub msg "Endpoint") ∧
      (resolved_deployment storeOnlyApiKey envNone "gpt-4o-mini" = none → containsSub msg "Deployment")) ∧
    promptGeneratorInit storeOnlyApiKey envNone "gpt-4o-mini" =
      Except.error "Missing gpt-4o-mini credentials: Endpoint, Deployment" :=
  ⟨promptGeneratorInit_names_all_missing storeOnlyApiKey envNone "gpt-4o-mini"
      (Or.inr (Or.inl (by decide))),
   rfl⟩

/-- Claim C10: for any model name other than `gpt-4o-mini` — including
arbitrary unrecognized names — the constructor resolves the `GPT3_MINI`
credential keys, and it succeeds exactly when those three credentials
are truthy: an unrecognized profile name alone never makes it fail. -/
theorem promptGeneratorInit_unrecognized_profile :
    ∀ (secrets env : String → Option String) (model_name : String),
      model_name ≠ "gpt-4o-mini" →
      resolved_api_key secrets env model_name = get_secret secrets env "GPT3_MINI_API_KEY" ∧
      resolved_endpoint secrets env model_name = get_secret secrets env "GPT3_MINI_ENDPOINT" ∧
      resolved_deployment secrets env model_name = get_secret secrets env "GPT3_MINI_DEPLOYMENT" ∧
      exceptIsOk (promptGeneratorInit secrets env model_name) =
        (truthyStr (get_secret secrets env "GPT3_MINI_API_KEY") &&
         truthyStr (get_secret secrets env "GPT3_MINI_ENDPOINT") &&
         truthyStr (get_secret secrets env "GPT3_MINI_DEPLOYMENT")) := by
  intro secrets env mn h
  have h1 : resolved_api_key secrets env mn = get_secret secrets env "GPT3_MINI_API_KEY" := by
    simp [resolved_api_key, h]
  have h2 : resolved_endpoint secrets env mn = get_secret secrets env "GPT3_MINI_ENDPOINT" := by
    simp [resolved_endpoint, h]
  have h3 : resolved_deployment secrets env mn = get_secret secrets env "GPT3_MINI_DEPLOYMENT" := by
    simp [resolved_deployment, h]
  refine ⟨h1, h2, h3, ?_⟩
  cases hb : (truthyStr (get_secret secrets env "GPT3_MINI_API_KEY") &&
      truthyStr (get_secret secrets env "GPT3_MINI_ENDPOINT") &&
      truthyStr (get_secret secrets env "GPT3_MINI_DEPLOYMENT")) <;>
    simp [promptGeneratorInit, h1, h2, h3, hb, exceptIsOk]

/-- Store holding the three `GPT3_MINI` credentials. -/
def storeGpt3 : String → Option String :=
  fun key => if key = "GPT3_MINI_API_KEY" then some "k3" else
    if key = "GPT3_MINI_ENDPOINT" then some "e3" else
    if key = "GPT3_MINI_DEPLOYMENT" then some "d3" else none

/-- Witness for claim C10 at the unrecognized profile name
`mystery-model` with all three `GPT3_MINI` credentials present. -/
theorem promptGeneratorInit_unrecognized_profile_witness :
    resolved_api_key storeGpt3 envNone "mystery-model" =
      get_secret storeGpt3 envNone "GPT3_MINI_API_KEY" ∧
    resolved_endpoint storeGpt3 envNone "mystery-model" =
      get_secret storeGpt3 envNone "GPT3_MINI_ENDPOINT" ∧
    resolved_deployment storeGpt3 envNone "mystery-model" =
      get_secret storeGpt3 envNone "GPT3_MINI_DEPLOYMENT" ∧
    exceptIsOk (promptGeneratorInit storeGpt3 envNone "mystery-model") =
      (truthyStr (get_secret storeGpt3 envNone "GPT3_MINI_API_KEY") &&
       truthyStr (get_secret storeGpt3 envNone "GPT3_MINI_ENDPOINT") &&
       truthyStr (get_secret storeGpt3 envNone "GPT3_MINI_DEPLOYMENT")) :=
  promptGeneratorInit_unrecognized_profile storeGpt3 envNone "mystery-model" (by decide)

/-- Helper: the generator expression of the source and the declarative
first-element-with-non-empty-text probe agree. -/
theorem firstTextItem_eq_find (items : List (Option String)) :
    firstTextItem items = (items.find? (fun it => it.getD "" != "")).join := by
  induction items with
  | nil => rfl
  | cons it rest ih =>
    cases it with
    | none => simpa [firstTextItem, List.find?] using ih
    | some t =>
      by_cases ht : t = ""
      · subst ht; simpa [firstTextItem, List.find?] using ih
      · have hbne : (t != "") = true := by simp [ht]
        simp [firstTextItem, List.find?, ht, hbne, Option.join]

/-- Helper: the content branches of the extraction block agree with the
ordered rules (b) and (c) of the spec. -/
theorem extractContent_eq_rules (ct : Option ContentValue) :
    extractContent ct =
      (match specRuleB { answer_text := none, content := ct } <|>
             specRuleC { answer_text := none, content := ct } with
       | some t => ({ status := "success", text := t } : ChatResult)
       | none => extractionFailure) := by
  rcases ct with _ | c
  · rfl
  rcases c with s | items | b
  · by_cases hs : s = "" <;>
      simp [extractContent, contentTruthy, specRuleB, specRuleC, hs]
  · have hB : specRuleB { answer_text := none, content := some (ContentValue.jlist items) } =
        (items.find? (fun it => it.getD "" != "")).join := rfl
    have hC : specRuleC { answer_text := none, content := some (ContentValue.jlist items) } =
        none := rfl
    rw [hB, hC, ← firstTextItem_eq_find]
    rcases items with _ | ⟨it, rest⟩
    · simp [extractContent, contentTruthy, firstTextItem, extractionFailure]
    · cases hft : firstTextItem (it :: rest) with
      | none => simp [extractContent, contentTruthy, hft]
      | some t => simp [extractContent, contentTruthy, hft]
  · cases b <;> simp [extractContent, contentTruthy, specRuleB, specRuleC]

/-- Claim C2: the reply extraction of `send_message` tries the three
rules strictly in order and returns the first non-empty value, with the
extraction-failure error when no rule yields text; the three concrete
precedence scenarios of the spec evaluate as claimed, and a successful
HTTP 200 response is processed by exactly this extraction. -/
theorem send_message_extraction_order :
    (∀ d : ApiResponseData, extractText d = specOrderedExtract d) ∧
    extractText { answer_text := some "A", content := some (ContentValue.jlist [some "B"]) } =
      { status := "success", text := "A" } ∧
    extractText { answer_text := none,
                  content := some (ContentValue.jlist [some "B", some "C"]) } =
      { status := "success", text := "B" } ∧
    extractText { answer_text := none, content := some (ContentValue.jstr "D") } =
      { status := "success", text := "D" } ∧
    (∀ (t : ChatbotTester) (uuids : Nat → String) (message language model body : String)
        (d : ApiResponseData),
      (send_message t uuids message language model
        (TransportResult.httpResponse 200 body (Except.ok d))).2 = extractText d) := by
  refine ⟨?_, by decide, by decide, by decide, ?_⟩
  · rintro ⟨at_, ct⟩
    rcases at_ with _ | t
    · simpa [extractText, specOrderedExtract, specRuleA] using extractContent_eq_rules ct
    · by_cases ht : t = ""
      · subst ht
        simpa [extractText, specOrderedExtract, specRuleA] using extractContent_eq_rules ct
      · simp [extractText, specOrderedExtract, specRuleA, ht]
  · intro t uuids message language model body d
    have hok : responseOk 200 = true := by decide
    simp [send_message, send_message_result, hok]

/-- Claim C5: `send_message` never raises — every transport outcome maps
to a result tagged `success` or `error`; a timeout yields exactly the
timeout message, and any other transport failure yields
`Error: <description>`. -/
theorem send_message_total_and_transport_errors :
    (∀ (t : ChatbotTester) (uuids : Nat → String) (message language model : String)
        (transport : TransportResult),
      (send_message t uuids message language model transport).2.status = "success" ∨
      (send_message t uuids message language model transport).2.status = "error") ∧
    (∀ (t : ChatbotTester) (uuids : Nat → String) (message language model : String),
      (send_message t uuids message language model TransportResult.timeout).2 =
        { status := "error", text := "Request timed out. Please try again." }) ∧
    (∀ (t : ChatbotTester) (uuids : Nat → String) (message language model e : String),
      (send_message t uuids message language model (TransportResult.exn e)).2 =
        { status := "error", text := "Error: " ++ e }) := by
  have hec : ∀ ct, (extractContent ct).status = "success" ∨
      (extractContent ct).status = "error" := by
    rintro (_ | c)
    · right; rfl
    rcases c with s | items | b
    · by_cases hs : s = "" <;> simp [extractContent, contentTruthy, hs, extractionFailure]
    · by_cases hi : items.isEmpty
      · simp [extractContent, contentTruthy, hi, extractionFailure]
      · cases hft : firstTextItem items <;>
          simp [extractContent, contentTruthy, hi, hft, extractionFailure]
    · cases b <;> simp [extractContent, contentTruthy, extractionFailure]
  have het : ∀ d : ApiResponseData, (extractText d).status = "success" ∨
      (extractText d).status = "error" := by
    rintro ⟨at_, ct⟩
    rcases at_ with _ | t
    · simpa [extractText] using hec ct
    · by_cases ht : t = ""
      · subst ht; simpa [extractText] using hec ct
      · simp [extractText, ht]
  refine ⟨?_, fun _ _ _ _ _ => rfl, fun _ _ _ _ _ _ => rfl⟩
  intro t uuids message language model transport
  rcases transport with ⟨code, body, parsed⟩ | _ | e
  · cases hok : responseOk code
    · right; simp [send_message, send_message_result, hok]
    · rcases parsed with e | d
      · right; simp [send_message, send_message_result, hok]
      · simpa [send_message, send_message_result, hok] using het d
  · right; rfl
  · right; rfl

/-- Claim C6: a failing HTTP status makes `send_message` return the
`HTTP error!` result with the status code and raw body verbatim. -/
theorem send_message_http_error_verbatim :
    ∀ (t : ChatbotTester) (uuids : Nat → String) (message language model : String)
      (status_code : Nat) (body : String) (parsed : Except String ApiResponseData),
      responseOk status_code = false →
      (send_message t uuids message language model
        (TransportResult.httpResponse status_code body parsed)).2 =
        { status := "error",
          text := "HTTP error! status: " ++ toString status_code ++ ", body: " ++ body } := by
  intro t uuids message language model sc body parsed h
  simp [send_message, send_message_result, h]

/-- Witness for claim C6: status 500 with body `oops` yields exactly
`HTTP error! status: 500, body: oops`. -/
theorem send_message_http_error_verbatim_witness :
    (send_message (mkChatbotTester "proj" "sys") (fun _ => "uuid") "hello" "fr" "gpt-4o-mini"
      (TransportResult.httpResponse 500 "oops" (Except.error "not json"))).2 =
      { status := "error", text := "HTTP error! status: 500, body: oops" } :=
  (send_message_http_error_verbatim (mkChatbotTester "proj" "sys") (fun _ => "uuid")
    "hello" "fr" "gpt-4o-mini" 500 "oops" (Except.error "not json") (by decide)).trans
    (by decide)

/-- Claim C7: generation is all-or-nothing — a failing completion call
or schema validation produces the prefixed `GenerationError` carrying
the cause's description, and a returned pair is exactly the validated
result of the completion call. -/
theorem generate_system_prompt_all_or_nothing :
    (∀ (oracle : String → Except String PromptWithExamples)
        (answers : String → Option String) (e : String),
      oracle (generation_request answers) = Except.error e →
      generate_system_prompt oracle answers =
        Except.error ("Erreur lors de la génération du prompt: " ++ e)) ∧
    (∀ (oracle : String → Except String PromptWithExamples)
        (answers : String → Option String) (sp : String) (qs : List String),
      generate_system_prompt oracle answers = Except.ok (sp, qs) →
      oracle (generation_request answers) =
        Except.ok { system_prompt := sp, example_questions := qs }) := by
  constructor
  · intro oracle answers e h; simp [generate_system_prompt, h]
  · intro oracle answers sp qs h
    cases ho : oracle (generation_request answers) with
    | ok r =>
      simp only [generate_system_prompt, ho, Except.ok.injEq, Prod.mk.injEq] at h
      obtain ⟨h1, h2⟩ := h
      subst h1; subst h2
      rfl
    | error e => simp [generate_system_prompt, ho] at h

/-- Witness for claim C7: a completion failure with description `boom`
surfaces as the prefixed generation error. -/
theorem generate_system_prompt_all_or_nothing_witness :
    generate_system_prompt (fun _ => Except.error "boom") (fun _ => none) =
      Except.error ("Erreur lors de la génération du prompt: " ++ "boom") :=
  generate_system_prompt_all_or_nothing.1 (fun _ => Except.error "boom") (fun _ => none)
    "boom" rfl

/-- Claim C8: `send_message` issues one HTTP POST to
`{base}/v1/projects/{projectId}/answer` with JSON content type and a
30-second timeout, and the envelope carries the trimmed message, the
two freshly drawn identifiers, an empty history and the prompt
configuration `{value: systemPrompt, temperature: 0, model}`. -/
theorem send_message_envelope_and_post :
    ∀ (project_id system_prompt : String) (uuids : Nat → String)
      (message language model : String) (transport : TransportResult),
      (send_message (mkChatbotTester project_id system_prompt) uuids message language model
        transport).1 =
      { method := "POST",
        url := "https://genii-messages-01.tolk.ai/v1/projects/" ++ project_id ++ "/answer",
        body := { conversation_id := uuids 0, message_text := message.trim,
                  trigger_type := "input", trigger_resource := none,
                  user_id := uuids 1, user_language := language, history := [],
                  promptConfig_value := system_prompt, promptConfig_temperature := 0,
                  promptConfig_model := model },
        content_type := "application/json", timeout_seconds := 30 } := by
  intro project_id system_prompt uuids message language model transport
  rfl

/-- Counterexample for claim C4: a completion response whose
`example_questions` has only 3 items passes schema validation and is
returned by a successful generation, contradicting the claimed 4-item
lower bound enforced by the schema. -/
theorem promptWithExamples_three_questions_accepted :
    parsePromptWithExamples (JsonField.ofString "You are a helpful assistant.")
        (JsonField.ofStringList ["q1", "q2", "q3"]) =
      Except.ok { system_prompt := "You are a helpful assistant.",
                  example_questions := ["q1", "q2", "q3"] } ∧
    (["q1", "q2", "q3"] : List String).length < 4 ∧
    generate_system_prompt
        (fun _ => parsePromptWithExamples (JsonField.ofString "You are a helpful assistant.")
          (JsonField.ofStringList ["q1", "q2", "q3"]))
        (fun _ => none) =
      Except.ok ("You are a helpful assistant.", ["q1", "q2", "q3"]) :=
  ⟨rfl, by decide, rfl⟩

/-- Amended claim C4: the schema constrains only the two fields' types —
`system_prompt` a string and `example_questions` a list of strings of
any length — and a successful generation returns the validated pair
unchanged; the 4-to-5 count is requested in the prompt text only. -/
theorem promptWithExamples_schema_type_only :
    (∀ (sp : String) (qs : List String),
      parsePromptWithExamples (JsonField.ofString sp) (JsonField.ofStringList qs) =
        Except.ok { system_prompt := sp, example_questions := qs }) ∧
    (∀ (oracle : String → Except String PromptWithExamples)
        (answers : String → Option String) (r : PromptWithExamples),
      oracle (generation_request answers) = Except.ok r →
      generate_system_prompt oracle answers =
        Except.ok (r.system_prompt, r.example_questions)) := by
  constructor
  · intro sp qs; rfl
  · intro oracle answers r h; simp [generate_system_prompt, h]

/-- Witness for the amended claim C4: a validated response with three
questions is returned as-is by `generate_system_prompt`. -/
theorem promptWithExamples_schema_type_only_witness :
    generate_system_prompt
        (fun _ => Except.ok { system_prompt := "P", example_questions := ["a", "b", "c"] })
        (fun _ => none) =
      Except.ok ("P", ["a", "b", "c"]) :=
  promptWithExamples_schema_type_only.2
    (fun _ => Except.ok { system_prompt := "P", example_questions := ["a", "b", "c"] })
    (fun _ => none) { system_prompt := "P", example_questions := ["a", "b", "c"] } rfl

/-- The answers dictionary the UI passes when all four text areas are
left blank: every key is present, mapped to the empty string. -/
def blankAnswers : String → Option String :=
  fun key =>
    if key = "activite" ∨ key = "regles" ∨ key = "personnalite" ∨ key = "scenarios"
    then some "" else none

/-- Claim C1 evaluated at the failing input: with every answer field
present but empty — exactly what the UI passes for blank text areas —
each field position of the generation request renders the empty string,
not the placeholder; the placeholder is substituted only when a key is
missing from the dictionary. -/
theorem generation_request_blank_fields_render_empty :
    renderAnswer blankAnswers "activite" = "" ∧
    renderAnswer blankAnswers "regles" = "" ∧
    renderAnswer blankAnswers "personnalite" = "" ∧
    renderAnswer blankAnswers "scenarios" = "" ∧
    generation_request blankAnswers =
      genPromptPart0 ++ "" ++ genPromptPart1 ++ "" ++ genPromptPart2 ++ "" ++
        genPromptPart3 ++ "" ++ genPromptPart4 ∧
    renderAnswer (fun _ => none) "activite" = "Non spécifié" := by
  have h1 : renderAnswer blankAnswers "activite" = "" := by decide
  have h2 : renderAnswer blankAnswers "regles" = "" := by decide
  have h3 : renderAnswer blankAnswers "personnalite" = "" := by decide
  have h4 : renderAnswer blankAnswers "scenarios" = "" := by decide
  refine ⟨h1, h2, h3, h4, ?_, rfl⟩
  unfold generation_request
  rw [h1, h2, h3, h4]

end PromptApp
